import Mathlib

/-!
Shallow embedding of the dialogue-to-audio pipeline of `src/main.py`
(the slash-podcast repository), together with theorems settling the
stated properties of its specification.

Conventions of the embedding:
* external network calls (the LLM call, each speech-synthesis attempt,
  each file removal) are modelled by oracle functions supplied as
  parameters, so every run of the embedded code is a pure function of
  the oracles;
* Python exceptions are the inductive `PyError`; a fallible computation
  returns `Except PyError _`;
* byte buffers are `List Nat` (each entry one byte);
* the tenacity retry decorator is embedded faithfully from its source:
  `waitExponential` is `tenacity.wait_exponential`, `stopAfterAttempt`
  is `tenacity.stop_after_attempt`, `tenacityCall` is the retry loop
  (fuel-bounded, since the default stop condition `stop_never` makes
  the loop non-terminating on a persistently failing oracle).
-/

set_option autoImplicit false

namespace SlashPodcast

/-- Python exceptions that the embedded code distinguishes. -/
inductive PyError where
  /-- `openai.RateLimitError` -/
  | rateLimitError
  /-- `pydantic.ValidationError` -/
  | validationError
  /-- `gr.Error msg` raised by `generate_audio` itself -/
  | grError (msg : String)
  /-- `tenacity.RetryError` wrapping the last failed outcome -/
  | retryExhausted (last : PyError)
  /-- any other exception, carrying its `str()` -/
  | otherError (msg : String)
  deriving DecidableEq, Repr

/-- One byte per entry; an audio payload as returned by a synthesis call. -/
abbrev Bytes := List Nat

/-- The speaker literal type of `DialogueItem.speaker`:
`Literal["female-1", "male-1", "female-2"]` in `src/main.py`. -/
inductive Speaker where
  | female1
  | male1
  | female2
  deriving DecidableEq, Repr

/-- The string carried by each `Speaker` literal. -/
def speakerStr : Speaker → String
  | .female1 => "female-1"
  | .male1 => "male-1"
  | .female2 => "female-2"

/-- `class DialogueItem(BaseModel)` of `src/main.py`. -/
structure DialogueItem where
  text : String
  speaker : Speaker
  deriving DecidableEq, Repr

/-- The literal dictionary inside the `voice` property of `DialogueItem`:
`{"female-1": "alloy", "male-1": "onyx", "female-2": "shimmer"}`. -/
def voiceDict : List (String × String) :=
  [("female-1", "alloy"), ("male-1", "onyx"), ("female-2", "shimmer")]

/-- The `voice` property of `DialogueItem`: a dictionary subscript
`{...}[self.speaker]`, which in Python raises `KeyError` when the key is
absent; hence the `Option` result. -/
def DialogueItem.voice (item : DialogueItem) : Option String :=
  voiceDict.lookup (speakerStr item.speaker)

/-- `class Dialogue(BaseModel)` of `src/main.py`. -/
structure Dialogue where
  scratchpad : String
  dialogue : List DialogueItem
  deriving DecidableEq, Repr

/-! ## The tenacity retry decorator -/

/-- `tenacity.wait_exponential(multiplier, max, exp_base = 2, min)`
evaluated at a given attempt number:
`result = multiplier * exp_base ** attempt_number`, clamped to
`max(max(0, min), min(result, max))`.  Delays in whole seconds. -/
def waitExponential (multiplier mn mx : Nat) (attemptNumber : Nat) : Nat :=
  Nat.max (Nat.max 0 mn) (Nat.min (multiplier * 2 ^ attemptNumber) mx)

/-- `tenacity.stop_after_attempt(maxAttempt)`: stop once
`attempt_number >= max_attempt_number`. -/
def stopAfterAttempt (maxAttempt : Nat) (attemptNumber : Nat) : Bool :=
  maxAttempt ≤ attemptNumber

/-- `tenacity.stop_never`, the default `stop` of `tenacity.retry`:
never stop retrying. -/
def stopNever (_attemptNumber : Nat) : Bool :=
  false

/-- `tenacity.wait_none`, the default `wait` of `tenacity.retry`:
no delay between attempts. -/
def waitNone (_attemptNumber : Nat) : Nat :=
  0

/-- `tenacity.retry_if_exception_type(RateLimitError)` as a predicate on
the raised error. -/
def isRateLimit : PyError → Bool
  | .rateLimitError => true
  | _ => false

/-- `tenacity.retry_if_exception_type(ValidationError)` as a predicate on
the raised error. -/
def isValidation : PyError → Bool
  | .validationError => true
  | _ => false

/-- The observable outcome of one run of a tenacity-wrapped call:
the final result (`none` when the supplied fuel ran out before the loop
finished, which for `stop_never` models an indefinitely retrying loop),
the number of attempts actually issued to the wrapped function, and the
chronological list of inter-attempt delays slept. -/
structure RetryRun (α : Type) where
  result : Option (Except PyError α)
  attempts : Nat
  delays : List Nat
  deriving Repr

/-- Bookkeeping for one additional leading attempt followed by the delay
`d` before the remainder of the run. -/
def RetryRun.addStep {α : Type} (d : Nat) (r : RetryRun α) : RetryRun α :=
  { r with attempts := r.attempts + 1, delays := d :: r.delays }

/-- The retry loop of `tenacity.BaseRetrying`: run the wrapped call
(whose per-attempt outcome is `oracle attemptNumber`, attempts numbered
from 1); on success return the value; on an exception for which
`retryPred` is false re-raise it unchanged; otherwise, if `stop` holds at
the current attempt number raise `RetryError` (modelled as
`PyError.retryExhausted`), and if not, sleep `wait attemptNumber` and try
again.  `fuel` bounds the number of further attempts the model will
unfold. -/
def tenacityCall {α : Type} (oracle : Nat → Except PyError α)
    (retryPred : PyError → Bool) (stop : Nat → Bool) (wait : Nat → Nat) :
    Nat → Nat → RetryRun α
  | 0, _ => ⟨none, 0, []⟩
  | fuel + 1, n =>
    match oracle n with
    | .ok v => ⟨some (.ok v), 1, []⟩
    | .error e =>
      if retryPred e then
        if stop n then ⟨some (.error (.retryExhausted e)), 1, []⟩
        else RetryRun.addStep (wait n)
          (tenacityCall oracle retryPred stop wait fuel (n + 1))
      else ⟨some (.error e), 1, []⟩

/-- `get_mp3` of `src/main.py`: the single synthesis request (whose
outcome per attempt is `oracle`) wrapped in
`@retry(retry=retry_if_exception_type(RateLimitError),
wait=wait_exponential(multiplier=1, min=4, max=60),
stop=stop_after_attempt(5))`.  Five units of fuel suffice because the
stop condition fires at attempt 5. -/
def get_mp3 (oracle : Nat → Except PyError Bytes) : RetryRun Bytes :=
  tenacityCall oracle isRateLimit (stopAfterAttempt 5) (waitExponential 1 4 60) 5 1

/-! ## The pipeline orchestrator loop of generate_audio -/

/-- Whether an `Except` is a raised exception. -/
def exceptFailed {ε α : Type} : Except ε α → Bool
  | .error _ => true
  | .ok _ => false

/-- The bytes a per-line outcome contributes to the audio accumulator:
the synthesized payload on success, nothing on failure. -/
def okBytes (o : Except PyError Bytes) : Bytes :=
  match o with
  | .ok b => b
  | .error _ => []

/-- The f-string `f"{line.speaker}: {line.text}"` of the loop body. -/
def transcriptLine (item : DialogueItem) : String :=
  speakerStr item.speaker ++ ": " ++ item.text

/-- The transcript record the loop appends for one line: on success
`transcript_line + "\n\n"`, on failure
`f"{transcript_line} [AUDIO GENERATION FAILED]\n\n"`. -/
def lineRecord (item : DialogueItem) (failed : Bool) : String :=
  transcriptLine item ++
    (if failed then " [AUDIO GENERATION FAILED]" else "") ++ "\n\n"

/-- The mutable locals of the `for line in llm_output.dialogue` loop of
`generate_audio`, plus a count of the `time.sleep(0.2)` pauses taken. -/
structure LoopState where
  audio : Bytes
  transcript : String
  characters : Nat
  sleeps : Nat
  deriving DecidableEq, Repr

/-- The state before the loop: `audio = b""`, `transcript = ""`,
`characters = 0`; no inter-request delay taken yet. -/
def initState : LoopState :=
  ⟨[], "", 0, 0⟩

/-- One iteration of the loop body of `generate_audio`, given the
outcome of `get_mp3(line.text, line.voice, openai_api_key)` for this
line.  On success the bytes are appended to `audio`, the plain record to
`transcript`, `len(line.text)` to `characters`, and the fixed 200 ms
inter-request delay is slept; on any exception only the failure-marked
record is appended and the loop continues. -/
def processLine (st : LoopState) (item : DialogueItem)
    (outcome : Except PyError Bytes) : LoopState :=
  match outcome with
  | .ok chunk =>
    { audio := st.audio ++ chunk
      transcript := st.transcript ++ lineRecord item false
      characters := st.characters + item.text.length
      sleeps := st.sleeps + 1 }
  | .error _ =>
    { st with transcript := st.transcript ++ lineRecord item true }

/-- The whole `for` loop,`oracle i` being the outcome of the (already
retried) synthesis call for the line at position `i`; `i` is the
position of the first remaining line. -/
def runLines (oracle : Nat → Except PyError Bytes) :
    List DialogueItem → Nat → LoopState → LoopState
  | [], _, st => st
  | item :: rest, i, st =>
    runLines oracle rest (i + 1) (processLine st item (oracle i))

/-- The orchestrator run on a full dialogue, from the initial state. -/
def runPipeline (lines : List DialogueItem)
    (oracle : Nat → Except PyError Bytes) : LoopState :=
  runLines oracle lines 0 initState

/-- The per-line transcript records, in input order, that the loop
starting at position `i` produces. -/
def recordsFrom (oracle : Nat → Except PyError Bytes) :
    List DialogueItem → Nat → List String
  | [], _ => []
  | item :: rest, i =>
    lineRecord item (exceptFailed (oracle i)) :: recordsFrom oracle rest (i + 1)

/-- The audio bytes the loop starting at position `i` appends: the
concatenation, in order, of the successful payloads (a failed line
contributes the empty payload). -/
def successChunks (oracle : Nat → Except PyError Bytes) :
    List DialogueItem → Nat → Bytes
  | [], _ => []
  | _ :: rest, i => okBytes (oracle i) ++ successChunks oracle rest (i + 1)

/-- The characters counted by the loop starting at position `i`: the
total text length of the successful lines. -/
def successChars (oracle : Nat → Except PyError Bytes) :
    List DialogueItem → Nat → Nat
  | [], _ => 0
  | item :: rest, i =>
    (if exceptFailed (oracle i) then 0 else item.text.length) +
      successChars oracle rest (i + 1)

/-- The number of inter-request delays the loop starting at position `i`
takes: one per successful line. -/
def successCount (oracle : Nat → Except PyError Bytes) :
    List DialogueItem → Nat → Nat
  | [], _ => 0
  | _ :: rest, i =>
    (if exceptFailed (oracle i) then 0 else 1) + successCount oracle rest (i + 1)

/-! ## The artifact writer tail of generate_audio -/

/-- A directory entry seen by the retention sweep: its path, its
`os.path.getmtime` in whole seconds, and whether `os.path.isfile` holds
of it. -/
structure TmpFile where
  name : String
  mtime : Int
  isFile : Bool
  deriving DecidableEq, Repr

/-- The body of the sweep loop over the files `glob.glob` returned, in
order: delete a regular file strictly older than `24 * 60 * 60` seconds;
`removeOk f` tells whether `os.remove f` succeeds, and a failing removal
raises (`OSError`), stopping the loop.  Returns the deleted entries in
order. -/
def sweepFiles (now : Int) (removeOk : String → Bool) :
    List TmpFile → Except PyError (List TmpFile)
  | [] => .ok []
  | f :: rest =>
    if f.isFile && decide (now - f.mtime > 24 * 60 * 60) then
      if removeOk f.name then
        (sweepFiles now removeOk rest).map (f :: ·)
      else .error (.otherError ("OSError: " ++ f.name))
    else sweepFiles now removeOk rest

/-- Whether a file name (its name within the temp directory) is hidden:
Python glob never matches a leading dot with `*`. -/
def startsWithDot (s : String) : Bool :=
  match s.data with
  | c :: _ => c = '.'
  | [] => false

/-- The glob pattern `*.mp3` of the sweep: a file name matches exactly
when it carries the `.mp3` suffix AND is not dot-prefixed, since the
`*` of `glob.glob` skips hidden files (checked on the character list,
so that the test is kernel-evaluable). -/
def matchesMp3Glob (s : String) : Bool :=
  (".mp3").data.isSuffixOf s.data && !startsWithDot s

/-- The retention sweep of `generate_audio`:
`glob.glob(f"{temporary_directory}*.mp3")` restricts the listing to
paths with the `.mp3` suffix, then each old regular file is removed. -/
def retentionSweep (now : Int) (removeOk : String → Bool)
    (dirFiles : List TmpFile) : Except PyError (List TmpFile) :=
  sweepFiles now removeOk (dirFiles.filter (fun f => matchesMp3Glob f.name))

/-- The persistence tail of `generate_audio`: the concatenated audio is
written to a fresh uniquely named `.mp3` file (so the directory now
holds `priorFiles` plus that fresh file, whose mtime is `now`), then the
retention sweep runs with no exception handler around it, so a sweep
error propagates and the pair `(temporary_file.name, transcript)` is
only returned when the sweep finishes. -/
def persistAudio (newName : String) (transcript : String) (now : Int)
    (priorFiles : List TmpFile) (removeOk : String → Bool) :
    Except PyError (String × String) :=
  (retentionSweep now removeOk
      (priorFiles ++ [⟨newName, now, true⟩])).map
    (fun _ => (newName, transcript))

/-! ## The full generate_audio run -/

/-- Python truthiness of `os.getenv(...) or openai_api_key`: an absent
variable (`None`) and the empty string are both falsy. -/
def pyTruthy : Option String → Bool
  | none => false
  | some s => !s.isEmpty

/-- The characters Python `str.strip()` removes by default (ASCII part). -/
def pyIsSpace (c : Char) : Bool :=
  c = ' ' || c = '\t' || c = '\n' || c = '\r' || c = '\x0b' || c = '\x0c'

/-- `not text.strip()`: true exactly when the text is empty or
whitespace-only (checked on the character list, so that the test is
kernel-evaluable). -/
def pyStripEmpty (s : String) : Bool :=
  s.data.all pyIsSpace

/-- The `generate_dialogue` inner function of `generate_audio`: the LLM
call (per-attempt outcome `oracle`) wrapped in
`@retry(retry=retry_if_exception_type(ValidationError))`, whose `stop`
and `wait` are the tenacity defaults `stop_never` and `wait_none`. -/
def generate_dialogue (oracle : Nat → Except PyError Dialogue)
    (fuel : Nat) : RetryRun Dialogue :=
  tenacityCall oracle isValidation stopNever waitNone fuel 1

/-- Everything external a run of `generate_audio` observes. -/
structure GenEnv where
  /-- `os.getenv("OPENAI_API_KEY")` -/
  envApiKey : Option String
  /-- whether the input matched the Google-Docs-URL test (else: PDF path) -/
  isGoogleDocs : Bool
  /-- the document-source call: extracted text, or the `str()` of the
  exception it raised -/
  extractResult : Except String String
  /-- per-attempt outcome of the LLM call inside `generate_dialogue` -/
  dialogueOracle : Nat → Except PyError Dialogue
  /-- fuel for the unbounded `generate_dialogue` retry loop -/
  dialogueFuel : Nat
  /-- per line index, per attempt number: outcome of one synthesis request -/
  synthOracle : Nat → Nat → Except PyError Bytes
  /-- `time.time()` at the retention sweep, whole seconds -/
  now : Int
  /-- the unique name `NamedTemporaryFile` picked for the fresh artifact -/
  newName : String
  /-- the directory listing before the fresh artifact is written -/
  priorFiles : List TmpFile
  /-- whether `os.remove` succeeds on a given path -/
  removeOk : String → Bool

/-- The observable trace of one `generate_audio` run: how many LLM
attempts and how many synthesis requests were issued, and the outcome
(`none` when the unbounded dialogue retry loop was still running when
the model fuel ran out). -/
structure RunTrace where
  llmCalls : Nat
  synthCalls : Nat
  outcome : Option (Except PyError (String × String))

/-- The outcome `generate_audio` sees for the line at position `i`: the
result of the tenacity-wrapped `get_mp3`.  The default is unreachable
(lemma `get_mp3_result_isSome`: five units of fuel always complete the
five-attempt loop). -/
def lineOutcome (env : GenEnv) (i : Nat) : Except PyError Bytes :=
  (get_mp3 (env.synthOracle i)).result.getD (.error (.otherError "out of fuel"))

/-- The number of synthesis requests a run issues over the lines of
`dlg`: per line, what the retried `get_mp3` issued. -/
def totalSynthCalls (env : GenEnv) (dlg : Dialogue) : Nat :=
  (List.range dlg.dialogue.length).foldl
    (fun acc i => acc + (get_mp3 (env.synthOracle i)).attempts) 0

/-- `generate_audio(file_or_url, openai_api_key)` of `src/main.py`.
In order: the API-key precondition check; the document-source branch,
where extraction errors and the blank-text `gr.Error` are both caught by
the surrounding `except` and re-raised wrapped; the retried
`generate_dialogue` call; the per-line synthesis loop; persistence with
the inline retention sweep. -/
def generate_audio (env : GenEnv) (openai_api_key : Option String) :
    RunTrace :=
  if !(pyTruthy env.envApiKey || pyTruthy openai_api_key) then
    ⟨0, 0, some (.error (.grError "OpenAI API key is required"))⟩
  else
    let srcName := if env.isGoogleDocs then "Google Docs" else "PDF"
    let noText := if env.isGoogleDocs then
        "No text content found in the Google Docs document"
      else "No text content found in the PDF"
    match env.extractResult with
    | .error msg =>
      ⟨0, 0, some (.error (.grError
        ("Failed to process " ++ srcName ++ ": " ++ msg)))⟩
    | .ok text =>
      if pyStripEmpty text then
        ⟨0, 0, some (.error (.grError
          ("Failed to process " ++ srcName ++ ": " ++ noText)))⟩
      else
        let dRun := generate_dialogue env.dialogueOracle env.dialogueFuel
        match dRun.result with
        | none => ⟨dRun.attempts, 0, none⟩
        | some (.error e) => ⟨dRun.attempts, 0, some (.error e)⟩
        | some (.ok dlg) =>
          let st := runLines (lineOutcome env) dlg.dialogue 0 initState
          ⟨dRun.attempts, totalSynthCalls env dlg,
            some (persistAudio env.newName st.transcript env.now
              env.priorFiles env.removeOk)⟩

/-! ## General lemmas about the embedded loops -/

theorem join_cons (s : String) (rest : List String) :
    String.join (s :: rest) = s ++ String.join rest := by
  apply String.ext
  simp [String.join_eq]

/-- Closed form of the orchestrator loop: from any start state, the
audio grows by exactly the successful chunks, the transcript by the
joined records, the counter by the successful text lengths, and the
sleep count by the number of successes. -/
theorem runLines_eq (oracle : Nat → Except PyError Bytes)
    (lines : List DialogueItem) :
    ∀ (i : Nat) (st : LoopState),
      runLines oracle lines i st =
        ⟨st.audio ++ successChunks oracle lines i,
         st.transcript ++ String.join (recordsFrom oracle lines i),
         st.characters + successChars oracle lines i,
         st.sleeps + successCount oracle lines i⟩ := by
  induction lines with
  | nil =>
    intro i st
    simp [runLines, successChunks, recordsFrom, successChars, successCount,
      String.join, String.append_empty]
  | cons item rest ih =>
    intro i st
    match h : oracle i with
    | .ok chunk =>
      simp [runLines, ih, processLine, h, successChunks, recordsFrom,
        successChars, successCount, okBytes, exceptFailed, join_cons,
        String.append_assoc, Nat.add_assoc, Nat.add_comm, Nat.add_left_comm]
    | .error e =>
      simp [runLines, ih, processLine, h, successChunks, recordsFrom,
        successChars, successCount, okBytes, exceptFailed, join_cons,
        String.append_assoc]

theorem recordsFrom_length (oracle : Nat → Except PyError Bytes)
    (lines : List DialogueItem) :
    ∀ i : Nat, (recordsFrom oracle lines i).length = lines.length := by
  induction lines with
  | nil => intro i; rfl
  | cons item rest ih => intro i; simp [recordsFrom, ih]

theorem recordsFrom_get (oracle : Nat → Except PyError Bytes)
    (lines : List DialogueItem) :
    ∀ (j i : Nat) (item : DialogueItem), lines[i]? = some item →
      (recordsFrom oracle lines j)[i]? =
        some (lineRecord item (exceptFailed (oracle (j + i)))) := by
  induction lines with
  | nil => intro j i item h; simp at h
  | cons hd rest ih =>
    intro j i item h
    cases i with
    | zero =>
      simp at h
      subst h
      simp [recordsFrom]
    | succ i =>
      simp at h
      have := ih (j + 1) i item h
      simpa [recordsFrom, Nat.add_assoc, Nat.add_comm, Nat.add_left_comm]
        using this

/-- A strictly increasing list of delays (the wording of the spec). -/
def strictlyIncreasing : List Nat → Bool
  | [] => true
  | [_] => true
  | a :: b :: rest => decide (a < b) && strictlyIncreasing (b :: rest)

/-- A non-decreasing list of delays. -/
def nondecreasing : List Nat → Bool
  | [] => true
  | [_] => true
  | a :: b :: rest => decide (a ≤ b) && nondecreasing (b :: rest)

/-- With the default `stop_never` and `wait_none`, a persistently
failing retryable call consumes all fuel: one attempt per unit, zero
delay each, and no final outcome ever. -/
theorem tenacityCall_stopNever (oracle : Nat → Except PyError Dialogue)
    (h : ∀ n, oracle n = .error .validationError) :
    ∀ (fuel n : Nat),
      tenacityCall oracle isValidation stopNever waitNone fuel n =
        ⟨none, fuel, List.replicate fuel 0⟩ := by
  intro fuel
  induction fuel with
  | zero => intro n; rfl
  | succ fuel ih =>
    intro n
    simp [tenacityCall, h n, isValidation, stopNever, waitNone, ih (n + 1),
      RetryRun.addStep, List.replicate]

/-- A `stop_after_attempt k` loop given at least `k` attempts of fuel
always finishes: the stop condition fires at attempt `k` at the
latest. -/
theorem tenacity_stopAfterAttempt_total {α : Type}
    (oracle : Nat → Except PyError α) (retryPred : PyError → Bool)
    (wait : Nat → Nat) (k : Nat) :
    ∀ (fuel n : Nat), k ≤ n + fuel →
      (tenacityCall oracle retryPred (stopAfterAttempt k) wait
          (fuel + 1) n).result.isSome = true := by
  intro fuel
  induction fuel with
  | zero =>
    intro n hk
    simp only [Nat.add_zero] at hk
    match h : oracle n with
    | .ok v => simp [tenacityCall, h]
    | .error e =>
      by_cases hr : retryPred e = true
      · have hs : stopAfterAttempt k n = true := by
          simp [stopAfterAttempt, hk]
        simp [tenacityCall, h, hr, hs]
      · simp [tenacityCall, h, hr]
  | succ fuel ih =>
    intro n hk
    match h : oracle n with
    | .ok v => simp [tenacityCall, h]
    | .error e =>
      by_cases hr : retryPred e = true
      · by_cases hs : stopAfterAttempt k n = true
        · simp [tenacityCall, h, hr, hs]
        · have hk2 : k ≤ (n + 1) + fuel := by omega
          have hrec := ih (n + 1) hk2
          rw [tenacityCall]
          simp only [h]
          rw [if_pos hr, if_neg hs]
          simpa [RetryRun.addStep] using hrec
      · simp [tenacityCall, h, hr]

/-- The five units of fuel of `get_mp3` always complete the
five-attempt loop, so `lineOutcome` never falls back to its default. -/
theorem get_mp3_result_isSome (oracle : Nat → Except PyError Bytes) :
    (get_mp3 oracle).result.isSome = true :=
  tenacity_stopAfterAttempt_total oracle isRateLimit
    (waitExponential 1 4 60) 5 4 1 (by omega)

/-! ## Claim theorems -/

/-- C3, counterexample.  Under a sustained rate-limit the retried
`get_mp3` makes exactly 5 attempts and sleeps the delays 4, 4, 8, 16
seconds — the first two delays are equal (the exponential 2, 4 is
clamped up to the minimum 4), so the inter-attempt delay is NOT strictly
increasing as the claim states. -/
theorem backoff_counterexample :
    get_mp3 (fun _ => .error .rateLimitError) =
      ⟨some (.error (.retryExhausted .rateLimitError)), 5, [4, 4, 8, 16]⟩
    ∧ strictlyIncreasing [4, 4, 8, 16] = false := by
  constructor
  · rfl
  · rfl

/-- C3, amended.  Under a sustained rate-limit condition `get_mp3`
makes exactly the configured 5 attempts, with a NON-DECREASING (not
strictly increasing: the first two delays both equal the 4-second
minimum) inter-attempt delay of 4, 4, 8, 16 seconds, each bounded by
the 60-second ceiling; the exhausted run surfaces `RetryError` wrapping
the rate-limit error, which the orchestrator loop turns into a per-line
failure record and continues — not a process-ending error. -/
theorem backoff_amended (oracle : Nat → Except PyError Bytes)
    (h : ∀ n, oracle n = .error .rateLimitError) :
    get_mp3 oracle =
      ⟨some (.error (.retryExhausted .rateLimitError)), 5, [4, 4, 8, 16]⟩
    ∧ nondecreasing [4, 4, 8, 16] = true
    ∧ (∀ d ∈ [4, 4, 8, 16], d ≤ 60)
    ∧ ∀ (st : LoopState) (item : DialogueItem),
        processLine st item (.error (.retryExhausted .rateLimitError)) =
          { st with transcript := st.transcript ++ lineRecord item true } := by
  refine ⟨?_, rfl, by decide, fun st item => rfl⟩
  simp [get_mp3, tenacityCall, h, isRateLimit, stopAfterAttempt,
    waitExponential, RetryRun.addStep]

/-- C3, witness for `backoff_amended` at the everywhere-rate-limited
oracle. -/
theorem backoff_amended_witness :
    get_mp3 (fun _ => .error .rateLimitError) =
      ⟨some (.error (.retryExhausted .rateLimitError)), 5, [4, 4, 8, 16]⟩ :=
  (backoff_amended (fun _ => .error .rateLimitError) (fun _ => rfl)).1

/-- C4.  An error that is not a rate-limit error propagates out of
`get_mp3` on the very first attempt: one attempt issued, no delay slept,
and the original error returned unchanged. -/
theorem non_ratelimit_no_retry (oracle : Nat → Except PyError Bytes)
    (e : PyError) (h1 : oracle 1 = .error e) (h2 : isRateLimit e = false) :
    get_mp3 oracle = ⟨some (.error e), 1, []⟩ := by
  simp [get_mp3, tenacityCall, h1, h2]

/-- C4, witness at a concrete authentication error. -/
theorem non_ratelimit_no_retry_witness :
    get_mp3 (fun _ => .error (.otherError "auth failure")) =
      ⟨some (.error (.otherError "auth failure")), 1, []⟩ :=
  non_ratelimit_no_retry (fun _ => .error (.otherError "auth failure"))
    (.otherError "auth failure") rfl rfl

/-- C5, counterexample.  The `@retry` on `generate_dialogue` has no
`stop` argument, so tenacity defaults to `stop_never`: after 100
straight schema-validation failures the loop has issued 100 regeneration
attempts and still has not surfaced any error — contradicting the claim
that retries are bounded and exhaustion surfaces a fatal error. -/
theorem dialogue_retry_counterexample :
    (generate_dialogue (fun _ => .error .validationError) 100).attempts = 100
    ∧ (generate_dialogue (fun _ => .error .validationError) 100).result
        = none := by
  constructor
  · rfl
  · rfl

/-- C5, amended.  On persistent schema-validation failures the
regeneration retry is UNBOUNDED: for every fuel budget `n` the loop has
made `n` attempts (with no inter-attempt delay: tenacity default
`wait_none`) and produced no outcome, because its stop condition is the
default `stop_never`, which never holds. -/
theorem dialogue_retry_unbounded (oracle : Nat → Except PyError Dialogue)
    (h : ∀ n, oracle n = .error .validationError) (fuel : Nat) :
    (generate_dialogue oracle fuel).result = none
    ∧ (generate_dialogue oracle fuel).attempts = fuel
    ∧ (generate_dialogue oracle fuel).delays = List.replicate fuel 0
    ∧ ∀ n, stopNever n = false := by
  have hrun := tenacityCall_stopNever oracle h fuel 1
  refine ⟨?_, ?_, ?_, fun n => rfl⟩ <;>
    simp [generate_dialogue, hrun]

/-- C5, witness for `dialogue_retry_unbounded` at the always-invalid
oracle with fuel 3. -/
theorem dialogue_retry_unbounded_witness :
    (generate_dialogue (fun _ => .error .validationError) 3).result = none
    ∧ (generate_dialogue (fun _ => .error .validationError) 3).attempts = 3 :=
  ⟨(dialogue_retry_unbounded (fun _ => .error .validationError)
      (fun _ => rfl) 3).1,
   (dialogue_retry_unbounded (fun _ => .error .validationError)
      (fun _ => rfl) 3).2.1⟩

/-- C9.  The speaker-to-voice mapping is pure and total: the literal
dictionary resolves every declared speaker value to exactly one voice
identifier (its keys are exactly the three speaker literals, without
duplicates), and two items with the same speaker always resolve to the
same voice. -/
theorem voice_mapping_total :
    (∀ item : DialogueItem, item.voice =
      some (match item.speaker with
            | .female1 => "alloy"
            | .male1 => "onyx"
            | .female2 => "shimmer"))
    ∧ (voiceDict.map Prod.fst).Nodup
    ∧ ∀ a b : DialogueItem, a.speaker = b.speaker → a.voice = b.voice := by
  refine ⟨fun item => ?_, by decide, fun a b hab => ?_⟩
  · cases h : item.speaker <;>
      simp [DialogueItem.voice, voiceDict, speakerStr, h, List.lookup]
  · simp [DialogueItem.voice, hab]

/-- C9, witness: a concrete resolution and a concrete stability
instance. -/
theorem voice_mapping_total_witness :
    (⟨"hello", .male1⟩ : DialogueItem).voice = some "onyx"
    ∧ (⟨"a", .female2⟩ : DialogueItem).voice
        = (⟨"b", .female2⟩ : DialogueItem).voice := by
  refine ⟨?_, voice_mapping_total.2.2 ⟨"a", .female2⟩ ⟨"b", .female2⟩ rfl⟩
  have h := voice_mapping_total.1 ⟨"hello", .male1⟩
  simpa using h

/-- C10.  Processing a line whose synthesis failed leaves the audio
accumulator, the character counter and the count of inter-request
delays exactly as they were; only the transcript grows, by that line's
failure-marked record. -/
theorem failed_line_isolated (st : LoopState) (item : DialogueItem)
    (e : PyError) :
    processLine st item (.error e) =
      { st with transcript := st.transcript ++ lineRecord item true }
    ∧ (processLine st item (.error e)).audio = st.audio
    ∧ (processLine st item (.error e)).characters = st.characters
    ∧ (processLine st item (.error e)).sleeps = st.sleeps := by
  exact ⟨rfl, rfl, rfl, rfl⟩

/-- When every removal succeeds, the sweep loop deletes exactly the
regular files strictly older than the window, in order. -/
theorem sweepFiles_all_ok (now : Int) :
    ∀ l : List TmpFile,
      sweepFiles now (fun _ => true) l =
        .ok (l.filter
          (fun f => f.isFile && decide (now - f.mtime > 24 * 60 * 60))) := by
  intro l
  induction l with
  | nil => rfl
  | cons f rest ih =>
    by_cases hf : (f.isFile && decide (now - f.mtime > 24 * 60 * 60)) = true
    · simp only [sweepFiles, hf, if_true, ih, List.filter_cons]
      simp [Except.map, hf]
    · simp only [sweepFiles, ih, List.filter_cons]
      simp [Except.map, hf]
      split <;> rfl

/-- C6, counterexample.  A failed deletion during the retention sweep
IS propagated: with one stale artifact whose removal fails, persistence
raises the `OSError` instead of returning the freshly written path and
the transcript — the sweep loop of `generate_audio` has no exception
handler around it. -/
theorem sweep_error_counterexample :
    persistAudio "new.mp3" "the transcript" 200000
        [⟨"old.mp3", 0, true⟩] (fun _ => false)
      = .error (.otherError "OSError: old.mp3") := by
  rfl

/-- C6, amended.  An error in the retention sweep is fatal to the
persistence step: whenever the sweep raises, `generate_audio`
propagates exactly that error and does not return the new path and
transcript; the pair is returned precisely when the sweep finishes
without raising. -/
theorem sweep_error_propagates (newName transcript : String) (now : Int)
    (priorFiles : List TmpFile) (removeOk : String → Bool) :
    (∀ e : PyError,
      retentionSweep now removeOk (priorFiles ++ [⟨newName, now, true⟩])
          = .error e →
        persistAudio newName transcript now priorFiles removeOk = .error e)
    ∧ ∀ deleted : List TmpFile,
        retentionSweep now removeOk (priorFiles ++ [⟨newName, now, true⟩])
            = .ok deleted →
          persistAudio newName transcript now priorFiles removeOk
            = .ok (newName, transcript) := by
  constructor
  · intro e he
    simp [persistAudio, he, Except.map]
  · intro deleted hd
    simp [persistAudio, hd, Except.map]

/-- C6, witness for `sweep_error_propagates`: one stale file whose
removal fails, and separately an empty directory where the sweep
succeeds. -/
theorem sweep_error_propagates_witness :
    persistAudio "fresh.mp3" "t" 500000 [⟨"stale.mp3", 1, true⟩]
        (fun _ => false)
      = .error (.otherError "OSError: stale.mp3")
    ∧ persistAudio "fresh.mp3" "t" 500000 [] (fun _ => true)
      = .ok ("fresh.mp3", "t") :=
  ⟨(sweep_error_propagates "fresh.mp3" "t" 500000 [⟨"stale.mp3", 1, true⟩]
      (fun _ => false)).1 (.otherError "OSError: stale.mp3") (by rfl),
   (sweep_error_propagates "fresh.mp3" "t" 500000 [] (fun _ => true)).2
      [] (by rfl)⟩

/-- C7, counterexample.  A hidden stale artifact: the name
`.stale.mp3` carries the artifact extension and its age (200000 s)
exceeds the 24-hour window, yet the sweep deletes nothing — the `*` of
`glob.glob(f"{temporary_directory}*.mp3")` never matches a dot-prefixed
file name, so the program never lists it.  This refutes the claim that
every extension-matching file older than the window is deleted. -/
theorem retention_hidden_counterexample :
    (".mp3").data.isSuffixOf (".stale.mp3").data = true
    ∧ ((200000 : Int) - 0 > 24 * 60 * 60)
    ∧ retentionSweep 200000 (fun _ => true) [⟨".stale.mp3", 0, true⟩]
        = .ok [] := by
  refine ⟨by decide, by decide, by rfl⟩

/-- C7, amended.  With removals succeeding, the retention sweep deletes
exactly the regular files LISTED BY THE GLOB `*.mp3` — `.mp3`-suffixed
and not dot-prefixed, since glob skips hidden files — whose age
strictly exceeds the 24-hour window: every deleted file is
glob-listed and older than the window (so a file within the window —
in particular the freshly created artifact, whose mtime is `now` — is
never deleted, and a hidden file is never deleted however old), and
every glob-listed regular file older than the window is deleted. -/
theorem retention_sweep_amended (now : Int) (files : List TmpFile) :
    retentionSweep now (fun _ => true) files =
      .ok (files.filter (fun f =>
        (f.isFile && decide (now - f.mtime > 24 * 60 * 60))
          && matchesMp3Glob f.name))
    ∧ (∀ f ∈ files.filter (fun f =>
        (f.isFile && decide (now - f.mtime > 24 * 60 * 60))
          && matchesMp3Glob f.name),
        now - f.mtime > 24 * 60 * 60 ∧ matchesMp3Glob f.name = true)
    ∧ ∀ f ∈ files, matchesMp3Glob f.name = true → f.isFile = true →
        now - f.mtime > 24 * 60 * 60 →
        f ∈ files.filter (fun f =>
          (f.isFile && decide (now - f.mtime > 24 * 60 * 60))
            && matchesMp3Glob f.name) := by
  refine ⟨?_, ?_, ?_⟩
  · rw [retentionSweep, sweepFiles_all_ok now]
    rw [List.filter_filter]
  · intro f hf
    rw [List.mem_filter] at hf
    have hb := hf.2
    simp only [Bool.and_eq_true, decide_eq_true_eq] at hb
    exact ⟨hb.1.2, hb.2⟩
  · intro f hf hmp3 hfile hold
    rw [List.mem_filter]
    refine ⟨hf, ?_⟩
    simp only [Bool.and_eq_true, decide_eq_true_eq]
    exact ⟨⟨hfile, hold⟩, hmp3⟩

/-- C7, witness: a directory with a stale artifact, a fresh artifact,
a stale hidden artifact and a stale non-artifact; only the visible
stale artifact is deleted. -/
theorem retention_sweep_amended_witness :
    retentionSweep 200000 (fun _ => true)
        [⟨"stale.mp3", 0, true⟩, ⟨"fresh.mp3", 200000, true⟩,
         ⟨".hidden.mp3", 0, true⟩, ⟨"notes.txt", 0, true⟩]
      = .ok [⟨"stale.mp3", 0, true⟩]
    ∧ (⟨"stale.mp3", 0, true⟩ : TmpFile) ∈
        ([⟨"stale.mp3", 0, true⟩, ⟨"fresh.mp3", 200000, true⟩,
          ⟨".hidden.mp3", 0, true⟩, ⟨"notes.txt", 0, true⟩]
          : List TmpFile).filter (fun f =>
          (f.isFile && decide ((200000 : Int) - f.mtime > 24 * 60 * 60))
            && matchesMp3Glob f.name) := by
  constructor
  · have h := (retention_sweep_amended 200000
      [⟨"stale.mp3", 0, true⟩, ⟨"fresh.mp3", 200000, true⟩,
       ⟨".hidden.mp3", 0, true⟩, ⟨"notes.txt", 0, true⟩]).1
    rw [h]
    rfl
  · exact (retention_sweep_amended 200000
      [⟨"stale.mp3", 0, true⟩, ⟨"fresh.mp3", 200000, true⟩,
       ⟨".hidden.mp3", 0, true⟩, ⟨"notes.txt", 0, true⟩]).2.2
      ⟨"stale.mp3", 0, true⟩ (by simp) (by rfl) (by rfl) (by decide)

/-- C1.  The orchestrator keeps the transcript in lock-step with the
input: for every dialogue and every assignment of per-line synthesis
outcomes, the final transcript is the join of exactly one record per
input line, in input order, and the record at position `i` is the
speaker-prefixed text of line `i` carrying the failure marker exactly
when the synthesis of line `i` failed. -/
theorem transcript_lockstep (lines : List DialogueItem)
    (oracle : Nat → Except PyError Bytes) :
    (runPipeline lines oracle).transcript
        = String.join (recordsFrom oracle lines 0)
    ∧ (recordsFrom oracle lines 0).length = lines.length
    ∧ ∀ (i : Nat) (item : DialogueItem), lines[i]? = some item →
        (recordsFrom oracle lines 0)[i]? =
          some (transcriptLine item ++
            (if exceptFailed (oracle i) then " [AUDIO GENERATION FAILED]"
             else "") ++ "\n\n") := by
  refine ⟨?_, recordsFrom_length oracle lines 0, ?_⟩
  · rw [runPipeline, runLines_eq]
    simp [initState]
  · intro i item h
    have hg := recordsFrom_get oracle lines 0 i item h
    simpa [lineRecord, Nat.zero_add] using hg

/-- C1, witness on a two-line dialogue whose second synthesis fails:
the second record carries the marker. -/
theorem transcript_lockstep_witness :
    (recordsFrom (fun i => if i = 0 then .ok [1] else .error .rateLimitError)
        [⟨"hi", .female1⟩, ⟨"yo", .male1⟩] 0)[1]? =
      some "male-1: yo [AUDIO GENERATION FAILED]\n\n" := by
  have h := (transcript_lockstep [⟨"hi", .female1⟩, ⟨"yo", .male1⟩]
    (fun i => if i = 0 then .ok [1] else .error .rateLimitError)).2.2 1
    ⟨"yo", .male1⟩ (by rfl)
  rw [h]
  decide

/-- When every line in sight succeeds with the corresponding payload,
the chunks the loop collects are exactly the flattened payloads. -/
theorem successChunks_payloads (oracle : Nat → Except PyError Bytes) :
    ∀ (lines : List DialogueItem) (payloads : List Bytes) (i : Nat),
      payloads.length = lines.length →
      (∀ k, k < lines.length → oracle (i + k) = .ok (payloads.getD k [])) →
      successChunks oracle lines i = payloads.flatten := by
  intro lines
  induction lines with
  | nil =>
    intro payloads i hlen h
    cases payloads with
    | nil => rfl
    | cons p ps => simp at hlen
  | cons item rest ih =>
    intro payloads i hlen h
    cases payloads with
    | nil => simp at hlen
    | cons p ps =>
      have h0 := h 0 (by simp)
      simp only [Nat.add_zero, List.getD_cons_zero] at h0
      have hrest : ∀ k, k < rest.length →
          oracle ((i + 1) + k) = .ok (ps.getD k []) := by
        intro k hk
        have hk1 := h (k + 1) (by simpa using Nat.succ_lt_succ hk)
        simpa [Nat.add_assoc, Nat.add_comm, Nat.add_left_comm] using hk1
      have hl : ps.length = rest.length := by simpa using hlen
      simp [successChunks, okBytes, h0, ih ps (i + 1) hl hrest]

/-- C2.  The produced audio is the concatenation, in input order, of
exactly the successful per-line payloads (a failed line contributes
zero bytes); in particular, when every synthesis succeeds with payload
`payloads[i]` for line `i`, the audio is the in-order flattening of all
of them, with no interleaving or reordering. -/
theorem audio_concat (lines : List DialogueItem)
    (oracle : Nat → Except PyError Bytes) :
    (runPipeline lines oracle).audio = successChunks oracle lines 0
    ∧ ∀ payloads : List Bytes, payloads.length = lines.length →
        (∀ k, k < lines.length → oracle k = .ok (payloads.getD k [])) →
        (runPipeline lines oracle).audio = payloads.flatten := by
  have hbase : (runPipeline lines oracle).audio
      = successChunks oracle lines 0 := by
    rw [runPipeline, runLines_eq]
    simp [initState]
  refine ⟨hbase, fun payloads hlen h => ?_⟩
  rw [hbase]
  exact successChunks_payloads oracle lines payloads 0 hlen
    (by simpa using h)

/-- C2, witness: two successful lines, audio is their payloads in
order. -/
theorem audio_concat_witness :
    (runPipeline [⟨"a", .female1⟩, ⟨"b", .male1⟩]
        (fun k => if k = 0 then .ok [10, 11] else .ok [20])).audio
      = [10, 11, 20] := by
  have h := (audio_concat [⟨"a", .female1⟩, ⟨"b", .male1⟩]
      (fun k => if k = 0 then .ok [10, 11] else .ok [20])).2
      [[10, 11], [20]] (by rfl)
      (by
        intro k hk
        simp only [List.length_cons, List.length_nil] at hk
        interval_cases k <;> rfl)
  simpa using h

/-- C8.  When the extracted document text is empty or whitespace-only,
`generate_audio` raises a fatal `gr.Error` before the dialogue
generator and before any synthesis request: zero LLM attempts, zero
synthesis requests, and no path or transcript is produced. -/
theorem empty_text_aborts (env : GenEnv) (key : Option String)
    (text : String) (h1 : env.extractResult = .ok text)
    (h2 : pyStripEmpty text = true) :
    (generate_audio env key).llmCalls = 0
    ∧ (generate_audio env key).synthCalls = 0
    ∧ ∃ msg, (generate_audio env key).outcome
        = some (.error (.grError msg)) := by
  by_cases hk : (pyTruthy env.envApiKey || pyTruthy key) = true
  · refine ⟨?_, ?_, ?_⟩
    · simp [generate_audio, hk, h1, h2]
    · simp [generate_audio, hk, h1, h2]
    · by_cases hg : env.isGoogleDocs = true
      · exact ⟨"Failed to process Google Docs: No text content found in the Google Docs document",
          by simp [generate_audio, hk, h1, h2, hg]⟩
      · exact ⟨"Failed to process PDF: No text content found in the PDF",
          by simp [generate_audio, hk, h1, h2, hg]⟩
  · refine ⟨?_, ?_, ?_⟩
    · simp [generate_audio, hk]
    · simp [generate_audio, hk]
    · exact ⟨"OpenAI API key is required", by simp [generate_audio, hk]⟩

/-- C8, witness at a whitespace-only PDF extraction. -/
theorem empty_text_aborts_witness :
    pyStripEmpty " \t " = true
    ∧ (generate_audio
        ⟨some "key", false, .ok " \t ", fun _ => .error .validationError, 3,
          fun _ _ => .ok [], 0, "x.mp3", [], fun _ => true⟩ none).llmCalls = 0
    ∧ (generate_audio
        ⟨some "key", false, .ok " \t ", fun _ => .error .validationError, 3,
          fun _ _ => .ok [], 0, "x.mp3", [], fun _ => true⟩ none).synthCalls
        = 0 := by
  refine ⟨by decide, ?_, ?_⟩
  · exact (empty_text_aborts
      ⟨some "key", false, .ok " \t ", fun _ => .error .validationError, 3,
        fun _ _ => .ok [], 0, "x.mp3", [], fun _ => true⟩ none " \t "
      rfl (by decide)).1
  · exact (empty_text_aborts
      ⟨some "key", false, .ok " \t ", fun _ => .error .validationError, 3,
        fun _ _ => .ok [], 0, "x.mp3", [], fun _ => true⟩ none " \t "
      rfl (by decide)).2.1

end SlashPodcast
